import Mathlib

/-!
Shallow embedding of the `RAFScheduler` class (src/unnamed/part_000).

Tasks are opaque callables keyed by reference identity; we model them as
natural-number handles. Timestamps from `performance.now()` are modelled
as integers (milliseconds); `Math.floor(x / 1000)` on a nonnegative
difference is integer floor division, modelled with `Int.fdiv`.

The JavaScript `Map`/`Set` registries are modelled as functions
`TaskId → Option Entry` / `TaskId → Bool`; `Map.set`, `Map.delete`,
`Set.add`, `Set.delete` become pointwise updates.

Each registered task owns a self-rescheduling tick closure
(`_scheduleInterval` / `_scheduleTimeout`). One run of that closure at a
given clock reading is modelled by `intervalTick` / `timeoutTick`,
returning the updated scheduler state, the `{delta, elapsed}` record the
callback was invoked with (`none` when the callback was not invoked) and
whether `requestAnimationFrame` was called again for the chain.
-/

abbrev TaskId := Nat

/-- Value of the interval registry: `{ duration, lastTime, startTime }`. -/
structure IntervalEntry where
  duration : Int
  lastTime : Int
  startTime : Int
deriving DecidableEq, Repr

/-- Value of the timeout registry: `{ duration, startTime }`. -/
structure TimeoutEntry where
  duration : Int
  startTime : Int
deriving DecidableEq, Repr

/-- The four private fields of `RAFScheduler`. -/
structure Scheduler where
  intervals : TaskId → Option IntervalEntry
  timeouts : TaskId → Option TimeoutEntry
  locked : TaskId → Bool
  running : Bool

/-- Pointwise update of a function-backed map, mirroring `Map.set` /
`Map.delete` (with `none`) and `Set.add` / `Set.delete`. -/
def mapSet {α : Type} (f : TaskId → α) (t : TaskId) (v : α) : TaskId → α :=
  fun u => if u = t then v else f u

namespace RAFScheduler

/-- The constructor: empty registries, empty locked set, not running. -/
def new : Scheduler :=
  { intervals := fun _ => none
    timeouts := fun _ => none
    locked := fun _ => false
    running := false }

/-- `interval( callback, duration = 0 )`: stores the task with its
interval duration and zeroed timing information. -/
def interval (s : Scheduler) (t : TaskId) (d : Int) : Scheduler :=
  { s with intervals := mapSet s.intervals t (some ⟨d, 0, 0⟩) }

/-- `timeout( callback, duration )`: stores the task with its delay
duration and zeroed timing information. -/
def timeout (s : Scheduler) (t : TaskId) (d : Int) : Scheduler :=
  { s with timeouts := mapSet s.timeouts t (some ⟨d, 0⟩) }

/-- `cancel( callback )`: removes the task from intervals, timeouts and
the locked-callbacks set. -/
def cancel (s : Scheduler) (t : TaskId) : Scheduler :=
  { s with
    intervals := mapSet s.intervals t none
    timeouts := mapSet s.timeouts t none
    locked := mapSet s.locked t false }

/-- `lock( callback )`: adds the task to the locked-callbacks set. -/
def lock (s : Scheduler) (t : TaskId) : Scheduler :=
  { s with locked := mapSet s.locked t true }

/-- `unlock( callback )`: removes the task from the locked-callbacks set. -/
def unlock (s : Scheduler) (t : TaskId) : Scheduler :=
  { s with locked := mapSet s.locked t false }

/-- `isLocked( callback )`: membership in the locked-callbacks set. -/
def isLocked (s : Scheduler) (t : TaskId) : Bool :=
  s.locked t

/-- `has( callback )`: membership in either registry. -/
def has (s : Scheduler) (t : TaskId) : Bool :=
  (s.intervals t).isSome || (s.timeouts t).isSome

/-- Result of one run of a tick closure: the scheduler state afterwards,
the `{delta, elapsed}` record passed to the callback (`none` when the
callback was not invoked this tick), and whether the closure requested
another animation frame. -/
structure TickResult where
  state : Scheduler
  fired : Option (Int × Int)
  continues : Bool

/-- One run of the `tick` closure created by `_scheduleInterval` for
task `t`, at clock reading `now`. -/
def intervalTick (s : Scheduler) (t : TaskId) (now : Int) : TickResult :=
  match s.intervals t with
  | none => { state := s, fired := none, continues := false }
  | some task =>
    let delta := now - task.lastTime
    let elapsed := (now - task.startTime).fdiv 1000
    if s.locked t = false ∧ (task.duration = 0 ∨ task.duration ≤ delta) then
      let s2 : Scheduler :=
        { s with intervals := mapSet s.intervals t (some { task with lastTime := now }) }
      { state := s2, fired := some (delta, elapsed), continues := (s2.intervals t).isSome }
    else
      { state := s, fired := none, continues := (s.intervals t).isSome }

/-- One run of the `tick` closure created by `_scheduleTimeout` for
task `t`, at clock reading `now`. -/
def timeoutTick (s : Scheduler) (t : TaskId) (now : Int) : TickResult :=
  match s.timeouts t with
  | none => { state := s, fired := none, continues := false }
  | some task =>
    let delta := now - task.startTime
    let elapsed := (now - task.startTime).fdiv 1000
    if s.locked t = false then
      if task.duration ≤ delta then
        { state := { s with timeouts := mapSet s.timeouts t none }
          fired := some (delta, elapsed)
          continues := false }
      else
        { state := s, fired := none, continues := true }
    else
      { state := s, fired := none, continues := true }

/-- Result of `exec()`: the scheduler state afterwards, and for each
registry which tasks had their drive chain started by this call. -/
structure ExecResult where
  state : Scheduler
  armedIntervals : TaskId → Bool
  armedTimeouts : TaskId → Bool

/-- `exec()`: no-op if already running; otherwise marks running, stamps
`lastTime = startTime = now` for every registered interval entry and
`startTime = now` for every registered timeout entry, and starts the
drive chain of every registered task. -/
def exec (s : Scheduler) (now : Int) : ExecResult :=
  if s.running then
    { state := s, armedIntervals := fun _ => false, armedTimeouts := fun _ => false }
  else
    { state :=
        { s with
          running := true
          intervals := fun u =>
            (s.intervals u).map fun e => { e with lastTime := now, startTime := now }
          timeouts := fun u =>
            (s.timeouts u).map fun e => { e with startTime := now } }
      armedIntervals := fun u => (s.intervals u).isSome
      armedTimeouts := fun u => (s.timeouts u).isSome }

end RAFScheduler

namespace RAFScheduler

/-- Helper: `exec` on an already-running scheduler returns the state
unchanged and arms nothing. -/
theorem exec_of_running (s : Scheduler) (now : Int) (h : s.running = true) :
    exec s now
        = { state := s
            armedIntervals := fun _ => false
            armedTimeouts := fun _ => false } := by
  simp [exec, h]

/-- C1: on an interval tick at clock reading `now` for a task whose entry
is `{duration, lastTime, startTime}`: when the task is not locked and
(`duration = 0` or `now - lastTime ≥ duration`), the callback is invoked
exactly once with `delta = now - lastTime` and
`elapsed = ⌊(now - startTime) / 1000⌋`, and the entry keeps its duration
and startTime while `lastTime` becomes `now`; otherwise the callback is
not invoked and the whole scheduler state is unchanged. -/
theorem interval_tick_spec (s : Scheduler) (t : TaskId) (now : Int)
    (e : IntervalEntry) (he : s.intervals t = some e) :
    ((s.locked t = false ∧ (e.duration = 0 ∨ e.duration ≤ now - e.lastTime)) →
      (intervalTick s t now).fired
          = some (now - e.lastTime, (now - e.startTime).fdiv 1000) ∧
      (intervalTick s t now).state.intervals t
          = some ⟨e.duration, now, e.startTime⟩) ∧
    (¬ (s.locked t = false ∧ (e.duration = 0 ∨ e.duration ≤ now - e.lastTime)) →
      (intervalTick s t now).fired = none ∧
      (intervalTick s t now).state = s) := by
  constructor
  · intro h
    simp [intervalTick, he, h, mapSet]
  · intro h
    simp [intervalTick, he, h]

/-- C1 witness: concrete firing tick for an interval task with duration
1000 armed at time 0, ticked at time 2500. -/
theorem interval_tick_spec_witness :
    (intervalTick (exec (interval new 0 1000) 0).state 0 2500).fired
        = some (2500, 2) :=
  ((interval_tick_spec (exec (interval new 0 1000) 0).state 0 2500
      ⟨1000, 0, 0⟩ rfl).1 (by decide)).1

/-- C2: for a task registered only in the timeout registry, an unlocked
tick with `now - startTime ≥ duration` invokes the callback exactly once
with `delta = now - startTime` and `elapsed = ⌊(now - startTime)/1000⌋`,
removes the entry from the timeout registry, makes `has` false, requests
no further frame, and every later tick of that chain neither fires nor
continues; any unlocked tick strictly before the deadline leaves the
state unchanged and keeps waiting. -/
theorem timeout_fires_once (s : Scheduler) (t : TaskId) (now : Int)
    (e : TimeoutEntry) (hto : s.timeouts t = some e)
    (hiv : s.intervals t = none) (hl : s.locked t = false)
    (hd : e.duration ≤ now - e.startTime) :
    (timeoutTick s t now).fired
        = some (now - e.startTime, (now - e.startTime).fdiv 1000) ∧
    (timeoutTick s t now).state.timeouts t = none ∧
    has (timeoutTick s t now).state t = false ∧
    (timeoutTick s t now).continues = false ∧
    (∀ now2 : Int,
      (timeoutTick (timeoutTick s t now).state t now2).fired = none ∧
      (timeoutTick (timeoutTick s t now).state t now2).continues = false) ∧
    (∀ now0 : Int, now0 - e.startTime < e.duration →
      (timeoutTick s t now0).state = s ∧
      (timeoutTick s t now0).fired = none ∧
      (timeoutTick s t now0).continues = true) := by
  refine ⟨?_, ?_, ?_, ?_, ?_, ?_⟩
  · simp [timeoutTick, hto, hl, hd]
  · simp [timeoutTick, hto, hl, hd, mapSet]
  · simp [timeoutTick, has, hto, hl, hd, mapSet, hiv]
  · simp [timeoutTick, hto, hl, hd]
  · intro now2
    constructor <;> simp [timeoutTick, hto, hl, hd, mapSet]
  · intro now0 h0
    refine ⟨?_, ?_, ?_⟩ <;> simp [timeoutTick, hto, hl, not_le.mpr h0]

/-- C2 witness: timeout of 500 ms armed at time 0 fires at a tick at
time 600 with delta 600 and elapsed 0, auto-destructs and stops. -/
theorem timeout_fires_once_witness :
    (timeoutTick (exec (timeout new 1 500) 0).state 1 600).fired
        = some (600, 0) ∧
    has (timeoutTick (exec (timeout new 1 500) 0).state 1 600).state 1 = false :=
  ⟨(timeout_fires_once (exec (timeout new 1 500) 0).state 1 600
      ⟨500, 0⟩ rfl rfl rfl (by decide)).1,
   (timeout_fires_once (exec (timeout new 1 500) 0).state 1 600
      ⟨500, 0⟩ rfl rfl rfl (by decide)).2.2.1⟩

/-- C3: while a task is in the locked set, a tick of its interval chain
or timeout chain never invokes it and changes nothing in the scheduler
state (in particular lastTime is not updated); after `unlock`, the very
next tick satisfying the fire condition invokes it, with no
re-registration needed. -/
theorem locked_skips_and_unlock_resumes (s : Scheduler) (t : TaskId)
    (now : Int) (hl : s.locked t = true) :
    (intervalTick s t now).fired = none ∧
    (intervalTick s t now).state = s ∧
    (timeoutTick s t now).fired = none ∧
    (timeoutTick s t now).state = s ∧
    (∀ (e : IntervalEntry) (now2 : Int), s.intervals t = some e →
      (e.duration = 0 ∨ e.duration ≤ now2 - e.lastTime) →
      (intervalTick (unlock s t) t now2).fired
          = some (now2 - e.lastTime, (now2 - e.startTime).fdiv 1000)) ∧
    (∀ (e : TimeoutEntry) (now2 : Int), s.timeouts t = some e →
      e.duration ≤ now2 - e.startTime →
      (timeoutTick (unlock s t) t now2).fired
          = some (now2 - e.startTime, (now2 - e.startTime).fdiv 1000)) := by
  refine ⟨?_, ?_, ?_, ?_, ?_, ?_⟩
  · cases hi : s.intervals t <;> simp [intervalTick, hi, hl]
  · cases hi : s.intervals t <;> simp [intervalTick, hi, hl]
  · cases ht : s.timeouts t <;> simp [timeoutTick, ht, hl]
  · cases ht : s.timeouts t <;> simp [timeoutTick, ht, hl]
  · intro e now2 he hcond
    simp [intervalTick, unlock, mapSet, he, hcond]
  · intro e now2 he hcond
    simp [timeoutTick, unlock, mapSet, he, hcond]

/-- C3 witness: a locked interval task with duration 0 does not fire and
its state is untouched; after unlock it fires on the next tick. -/
theorem locked_skips_and_unlock_resumes_witness :
    (intervalTick (lock (interval new 0 0) 0) 0 7).fired = none ∧
    (intervalTick (unlock (lock (interval new 0 0) 0) 0) 0 7).fired
        = some (7, 0) :=
  ⟨(locked_skips_and_unlock_resumes (lock (interval new 0 0) 0) 0 7 rfl).1,
   (locked_skips_and_unlock_resumes (lock (interval new 0 0) 0) 0 7
      rfl).2.2.2.2.1 ⟨0, 0, 0⟩ 7 rfl (Or.inl rfl)⟩

/-- C4: a tick of a timeout chain while the task is locked leaves the
entry (startTime and duration) and the whole state unchanged and only
requests another frame; after `unlock`, the first tick with
`now - startTime ≥ duration` fires immediately and auto-destructs. -/
theorem timeout_locked_preserves_deadline (s : Scheduler) (t : TaskId)
    (now : Int) (e : TimeoutEntry) (hto : s.timeouts t = some e)
    (hl : s.locked t = true) :
    (timeoutTick s t now).state = s ∧
    (timeoutTick s t now).fired = none ∧
    (timeoutTick s t now).continues = true ∧
    (∀ now2 : Int, e.duration ≤ now2 - e.startTime →
      (timeoutTick (unlock s t) t now2).fired
          = some (now2 - e.startTime, (now2 - e.startTime).fdiv 1000) ∧
      (timeoutTick (unlock s t) t now2).state.timeouts t = none) := by
  refine ⟨?_, ?_, ?_, ?_⟩
  · simp [timeoutTick, hto, hl]
  · simp [timeoutTick, hto, hl]
  · simp [timeoutTick, hto, hl]
  · intro now2 h2
    constructor <;> simp [timeoutTick, unlock, mapSet, hto, h2]

/-- C4 witness: timeout of 500 armed at 0 and locked: tick at 600 keeps
waiting with state unchanged; after unlock, the tick at 600 fires. -/
theorem timeout_locked_preserves_deadline_witness :
    (timeoutTick (lock (exec (timeout new 1 500) 0).state 1) 1 600).fired
        = none ∧
    (timeoutTick (unlock (lock (exec (timeout new 1 500) 0).state 1) 1)
        1 600).fired = some (600, 0) :=
  ⟨(timeout_locked_preserves_deadline
      (lock (exec (timeout new 1 500) 0).state 1) 1 600 ⟨500, 0⟩ rfl
      rfl).2.1,
   ((timeout_locked_preserves_deadline
      (lock (exec (timeout new 1 500) 0).state 1) 1 600 ⟨500, 0⟩ rfl
      rfl).2.2.2 600 (by decide)).1⟩

/-- C5: `cancel t` removes `t` from the interval registry, the timeout
registry and the locked set, leaves every other task and the running
flag untouched, and when `t` is absent from all three it leaves the
whole scheduler state literally unchanged (and, being total, never
signals an error). -/
theorem cancel_removes_everywhere (s : Scheduler) (t : TaskId) :
    (cancel s t).intervals t = none ∧
    (cancel s t).timeouts t = none ∧
    (cancel s t).locked t = false ∧
    (cancel s t).running = s.running ∧
    (∀ u : TaskId, u ≠ t →
      (cancel s t).intervals u = s.intervals u ∧
      (cancel s t).timeouts u = s.timeouts u ∧
      (cancel s t).locked u = s.locked u) ∧
    (s.intervals t = none → s.timeouts t = none → s.locked t = false →
      cancel s t = s) := by
  refine ⟨?_, ?_, ?_, rfl, ?_, ?_⟩
  · simp [cancel, mapSet]
  · simp [cancel, mapSet]
  · simp [cancel, mapSet]
  · intro u hu
    refine ⟨?_, ?_, ?_⟩ <;> simp [cancel, mapSet, hu]
  · intro h1 h2 h3
    cases s with
    | mk iv tos lk rn =>
      simp only [cancel, mapSet, Scheduler.mk.injEq, and_true]
      refine ⟨funext fun u => ?_, funext fun u => ?_, funext fun u => ?_⟩ <;>
        by_cases hu : u = t <;> simp_all [mapSet]

/-- C5 witness: cancelling an absent task on a scheduler holding another
task changes nothing. -/
theorem cancel_removes_everywhere_witness :
    cancel (interval new 0 1000) 1 = interval new 0 1000 :=
  (cancel_removes_everywhere (interval new 0 1000) 1).2.2.2.2.2 rfl rfl rfl

/-- C6 counterexample: `interval` and `timeout` accept a negative
duration instead of rejecting it: the entry is stored as given and the
negative-duration interval fires on the very first tick (always-fire). -/
theorem negative_duration_counterexample :
    (interval new 0 (-1)).intervals 0 = some ⟨-1, 0, 0⟩ ∧
    (timeout new 0 (-1)).timeouts 0 = some ⟨-1, 0⟩ ∧
    (intervalTick (interval new 0 (-1)) 0 0).fired = some (0, 0) := by
  refine ⟨rfl, rfl, ?_⟩
  simp [intervalTick, interval, new, mapSet]

/-- C6 amended: registration performs no validation of the duration: a
negative duration is stored unchanged and never signals an error; the
resulting interval entry fires on every tick with a nonnegative clock
reading (always-fire), and the resulting timeout entry fires on its
first unlocked tick. -/
theorem negative_duration_stored_always_fires (s : Scheduler) (t : TaskId)
    (d : Int) (hd : d < 0) (hl : s.locked t = false) :
    (interval s t d).intervals t = some ⟨d, 0, 0⟩ ∧
    (timeout s t d).timeouts t = some ⟨d, 0⟩ ∧
    (∀ now : Int, 0 ≤ now →
      (intervalTick (interval s t d) t now).fired
          = some (now, now.fdiv 1000)) ∧
    (∀ now : Int, 0 ≤ now →
      (timeoutTick (timeout s t d) t now).fired
          = some (now, now.fdiv 1000) ∧
      (timeoutTick (timeout s t d) t now).state.timeouts t = none) := by
  refine ⟨by simp [interval, mapSet], by simp [timeout, mapSet], ?_, ?_⟩
  · intro now hnow
    have hle : d ≤ now := by omega
    simp [intervalTick, interval, mapSet, hl, hle]
  · intro now hnow
    have hle : d ≤ now := by omega
    constructor <;> simp [timeoutTick, timeout, mapSet, hl, hle]

/-- C6 amended witness: duration -1 is stored and fires at clock 5. -/
theorem negative_duration_stored_always_fires_witness :
    (interval new 0 (-1)).intervals 0 = some ⟨-1, 0, 0⟩ ∧
    (intervalTick (interval new 0 (-1)) 0 5).fired = some (5, 0) :=
  ⟨(negative_duration_stored_always_fires new 0 (-1) (by decide) rfl).1,
   (negative_duration_stored_always_fires new 0 (-1) (by decide)
      rfl).2.2.1 5 (by decide)⟩

/-- C7: the first `exec` call sets the running flag, stamps
`lastTime = startTime = now` on every registered interval entry and
`startTime = now` on every registered timeout entry, registers no new
tasks, leaves the locked set alone and arms exactly the registered
tasks; any later `exec` call returns the state unchanged and arms no
chain at all. -/
theorem exec_idempotent (s : Scheduler) (now now2 : Int)
    (h : s.running = false) :
    (exec s now).state.running = true ∧
    (∀ (t : TaskId) (e : IntervalEntry), s.intervals t = some e →
      (exec s now).state.intervals t = some ⟨e.duration, now, now⟩) ∧
    (∀ t : TaskId, s.intervals t = none →
      (exec s now).state.intervals t = none) ∧
    (∀ (t : TaskId) (e : TimeoutEntry), s.timeouts t = some e →
      (exec s now).state.timeouts t = some ⟨e.duration, now⟩) ∧
    (∀ t : TaskId, s.timeouts t = none →
      (exec s now).state.timeouts t = none) ∧
    (exec s now).state.locked = s.locked ∧
    (∀ t : TaskId,
      (exec s now).armedIntervals t = (s.intervals t).isSome ∧
      (exec s now).armedTimeouts t = (s.timeouts t).isSome) ∧
    exec (exec s now).state now2
        = { state := (exec s now).state
            armedIntervals := fun _ => false
            armedTimeouts := fun _ => false } := by
  refine ⟨by simp [exec, h], ?_, ?_, ?_, ?_, by simp [exec, h], ?_, ?_⟩
  · intro t e he; simp [exec, h, he]
  · intro t he; simp [exec, h, he]
  · intro t e he; simp [exec, h, he]
  · intro t he; simp [exec, h, he]
  · intro t; constructor <;> simp [exec, h]
  · have hr : (exec s now).state.running = true := by simp [exec, h]
    exact exec_of_running _ now2 hr

/-- C7 witness: double exec on a one-interval scheduler: the entry is
stamped once and the second call changes nothing. -/
theorem exec_idempotent_witness :
    (exec (interval new 0 1000) 5).state.intervals 0 = some ⟨1000, 5, 5⟩ ∧
    exec (exec (interval new 0 1000) 5).state 9
        = { state := (exec (interval new 0 1000) 5).state
            armedIntervals := fun _ => false
            armedTimeouts := fun _ => false } :=
  ⟨(exec_idempotent (interval new 0 1000) 5 9 rfl).2.1 0 ⟨1000, 0, 0⟩ rfl,
   (exec_idempotent (interval new 0 1000) 5 9 rfl).2.2.2.2.2.2.2⟩

/-- C8: re-registering the same task with `interval` replaces the entry:
the scheduler after `interval t d1; interval t d2` is exactly the
scheduler after `interval t d2` alone, holding the single entry
`{duration := d2, lastTime := 0, startTime := 0}` for `t`. -/
theorem interval_reregister_replaces (s : Scheduler) (t : TaskId)
    (d1 d2 : Int) :
    interval (interval s t d1) t d2 = interval s t d2 ∧
    (interval (interval s t d1) t d2).intervals t = some ⟨d2, 0, 0⟩ := by
  constructor
  · cases s with
    | mk iv tos lk rn =>
      simp only [interval, Scheduler.mk.injEq, and_true, true_and]
      funext u
      by_cases hu : u = t <;> simp [mapSet, hu]
  · simp [interval, mapSet]

/-- C8 witness: concrete double registration collapses to the second. -/
theorem interval_reregister_replaces_witness :
    (interval (interval new 0 300) 0 1000).intervals 0
        = some ⟨1000, 0, 0⟩ :=
  (interval_reregister_replaces new 0 300 1000).2

/-- C9: re-registering a task while the scheduler is already running
stores zeroed timestamps that are never re-stamped (a further `exec` is
a no-op), so the next tick of the live chain computes
`delta = now - 0 = now` and `elapsed = ⌊now / 1000⌋` and fires whenever
`now ≥ d`. -/
theorem reregister_while_running_uses_origin (s : Scheduler) (t : TaskId)
    (d now now2 : Int) (hr : s.running = true) (hl : s.locked t = false)
    (hd : d ≤ now) :
    (interval s t d).intervals t = some ⟨d, 0, 0⟩ ∧
    exec (interval s t d) now2
        = { state := interval s t d
            armedIntervals := fun _ => false
            armedTimeouts := fun _ => false } ∧
    (intervalTick (interval s t d) t now).fired
        = some (now, now.fdiv 1000) := by
  refine ⟨by simp [interval, mapSet], ?_, ?_⟩
  · exact exec_of_running _ now2 hr
  · have hle : d ≤ now := by omega
    simp [intervalTick, interval, mapSet, hl, hle]

/-- C9 witness: with the scheduler running, re-registered duration 1000
fires at the tick at clock 2500 with delta 2500, elapsed 2. -/
theorem reregister_while_running_uses_origin_witness :
    (intervalTick (interval (exec (interval new 0 300) 0).state 0 1000)
        0 2500).fired = some (2500, 2) :=
  (reregister_while_running_uses_origin (exec (interval new 0 300) 0).state
      0 1000 2500 9 (by simp [exec, new, interval]) rfl
      (by decide)).2.2

/-- C10: `isLocked` and `has` are pure reads of the state, and
`lock`/`unlock` touch only the locked set: both registries and the
running flag are unchanged, the target task becomes locked respectively
unlocked, and every other task keeps its lock status. -/
theorem lock_unlock_frame (s : Scheduler) (t : TaskId) :
    isLocked s t = s.locked t ∧
    has s t = ((s.intervals t).isSome || (s.timeouts t).isSome) ∧
    (lock s t).intervals = s.intervals ∧
    (lock s t).timeouts = s.timeouts ∧
    (lock s t).running = s.running ∧
    (lock s t).locked t = true ∧
    (unlock s t).intervals = s.intervals ∧
    (unlock s t).timeouts = s.timeouts ∧
    (unlock s t).running = s.running ∧
    (unlock s t).locked t = false ∧
    (∀ u : TaskId, u ≠ t →
      (lock s t).locked u = s.locked u ∧
      (unlock s t).locked u = s.locked u) := by
  refine ⟨rfl, rfl, rfl, rfl, rfl, by simp [lock, mapSet], rfl, rfl, rfl,
    by simp [unlock, mapSet], ?_⟩
  intro u hu
  constructor <;> simp [lock, unlock, mapSet, hu]

/-- C10 witness: locking task 0 leaves the registries of a concrete
scheduler intact and marks task 0 locked. -/
theorem lock_unlock_frame_witness :
    (lock (interval new 0 1000) 0).intervals = (interval new 0 1000).intervals ∧
    (lock (interval new 0 1000) 0).locked 0 = true :=
  ⟨(lock_unlock_frame (interval new 0 1000) 0).2.2.1,
   (lock_unlock_frame (interval new 0 1000) 0).2.2.2.2.2.1⟩

end RAFScheduler
